import Mathlib

/-!
Shallow embedding of the Who-Am-I text-image feedback loop
(src/Who_Am_I_feedback_loop_github.py).

External effects -- the HTTP call to the local Ollama endpoint, the three
Replicate model invocations, the HTTP fetch of generated image bytes, and
the filesystem writes of the artifact store -- are modelled by explicit
environment records that fix the outcome of each effectful call.  The
Python methods then become pure Lean functions of their arguments and the
environment.  A Python value that may be None is modelled as an Option;
an operation that may raise is modelled by an Except-valued (or
Bool-valued) field of the environment, and the except-handlers of the
source become the corresponding case splits.
-/

deriving instance DecidableEq for Except

/-- A decoded raster image, abstracted as its byte content
(the bytes fetched from the image URL that PIL decoded). -/
abbrev Image := List Nat

/-- Outcome of the HTTP response from the local expansion endpoint:
the status code, and the result of reading the string field named
response out of the JSON body (error = the body fails to parse as JSON;
ok none = the field is missing, in which case the source defaults it
to the empty string). -/
structure LocalResponse where
  status : Nat
  jsonField : Except Unit (Option String)
deriving DecidableEq

/-- Environment fixing the outcome of every effectful call made by
expand_prompt and by its Replicate fallback expand_prompt_with_replicate. -/
structure ExpandEnv where
  /-- Outcome of requests.post to the local endpoint: a transport error
  (the call raises) or a response. -/
  localResult : Except Unit LocalResponse
  /-- Whether writing the expanded prompt file succeeds on the local path. -/
  localWriteOk : Bool
  /-- Outcome of replicate.run for the fallback model: a fault, or the
  streamed sequence of text chunks. -/
  fallbackResult : Except Unit (List String)
  /-- Whether writing the expanded prompt file succeeds on the fallback path. -/
  fallbackWriteOk : Bool
deriving DecidableEq

/-- Embeds the strip method of Python strings: removes leading and
trailing whitespace characters. -/
def pyStrip (s : String) : String :=
  String.mk (((s.data.dropWhile Char.isWhitespace).reverse.dropWhile
    Char.isWhitespace).reverse)

/-- Embeds FeedbackLoop._expand_prompt_with_replicate.  The streamed chunks
are concatenated and stripped; a fault anywhere in the try block (the
replicate.run call itself, or the prompt-file write) is caught and the
original short prompt is returned unchanged. -/
def expand_prompt_with_replicate (shortPrompt : Option String) (env : ExpandEnv) :
    Option String :=
  match env.fallbackResult with
  | Except.error _ => shortPrompt
  | Except.ok chunks =>
    let expanded := pyStrip (String.join chunks)
    if env.fallbackWriteOk then some expanded else shortPrompt

/-- Embeds FeedbackLoop.expand_prompt.  Returns the resulting prompt
together with the number of times the Replicate fallback was invoked.
On HTTP 200 the source reads response.json().get with default empty
string and strips it; a non-200 status, a transport error, a JSON parse
error, or a failure of the prompt-file write (all raising inside the try
block, caught at its except clause) fall back to Replicate. -/
def expand_prompt (shortPrompt : Option String) (env : ExpandEnv) :
    Option String × Nat :=
  match env.localResult with
  | Except.error _ => (expand_prompt_with_replicate shortPrompt env, 1)
  | Except.ok resp =>
    if resp.status = 200 then
      match resp.jsonField with
      | Except.error _ => (expand_prompt_with_replicate shortPrompt env, 1)
      | Except.ok field =>
        let expanded := pyStrip (field.getD "")
        if env.localWriteOk then (some expanded, 0)
        else (expand_prompt_with_replicate shortPrompt env, 1)
    else (expand_prompt_with_replicate shortPrompt env, 1)

/-- The input object generate_image sends to the image-synthesis provider. -/
structure SynthesisRequest where
  prompt : Option String
  width : Nat
  height : Nat
  num_outputs : Nat
  scheduler : String
  num_inference_steps : Nat
  guidance_scale : ℚ
  seed : Nat
  negative_prompt : String
deriving DecidableEq

/-- Builds the request generate_image sends: every field other than the
prompt is a fixed literal of the source. -/
def synthesisRequest (prompt : Option String) : SynthesisRequest :=
  { prompt := prompt
    width := 768
    height := 768
    num_outputs := 1
    scheduler := "K_EULER_ANCESTRAL"
    num_inference_steps := 50
    guidance_scale := 7.5
    seed := 42
    negative_prompt := "ugly, blurry, poor quality, deformed, disfigured" }

/-- Outcome of the requests.get fetch of an image URL: a transport fault
(the call raises) or a response with a status code and byte content. -/
inductive FetchResult where
  | fault : FetchResult
  | response (status : Nat) (content : List Nat) : FetchResult
deriving DecidableEq

/-- Environment fixing the outcome of every effectful call made by
generate_image.  The provider and the fetch are functions of what is
sent, so that a deterministic provider is one fixed function. -/
structure SynthEnv where
  /-- Outcome of replicate.run for the diffusion model: a fault, or the
  list of output image URLs. -/
  provider : SynthesisRequest → Except Unit (List String)
  /-- Outcome of requests.get on an image URL. -/
  fetch : String → FetchResult
  /-- Whether Image.open succeeds in decoding the fetched bytes. -/
  decodeOk : Bool
  /-- Whether image.save to the images directory succeeds. -/
  saveOk : Bool
  /-- The freshly generated UUID path the image is saved under. -/
  imagePath : String

/-- What generate_image produces: the value (image, path) the Python
function returns, plus the request it sent to the provider. -/
structure SynthOutcome where
  image : Option Image
  path : Option String
  request : SynthesisRequest

/-- Embeds FeedbackLoop.generate_image.  A provider fault, an empty
output list, a fetch fault, a non-200 fetch status, a decode failure or
a save failure all yield (None, None); otherwise the decoded image and
its saved path are returned. -/
def generate_image (prompt : Option String) (env : SynthEnv) : SynthOutcome :=
  let req := synthesisRequest prompt
  let ip : Option Image × Option String :=
    match env.provider req with
    | Except.error _ => (none, none)
    | Except.ok [] => (none, none)
    | Except.ok (url :: _) =>
      match env.fetch url with
      | FetchResult.fault => (none, none)
      | FetchResult.response status content =>
        if status = 200 then
          if env.decodeOk then
            if env.saveOk then (some content, some env.imagePath)
            else (none, none)
          else (none, none)
        else (none, none)
  { image := ip.1, path := ip.2, request := req }

/-- Environment fixing the outcome of every effectful call made by
describe_image. -/
structure CaptionEnv where
  /-- Whether image.save to the temporary path succeeds. -/
  tempSaveOk : Bool
  /-- Outcome of replicate.run for the captioning model (this also covers
  the open of the temporary file handed to it): a fault, or the streamed
  sequence of text chunks. -/
  providerResult : Except Unit (List String)
  /-- Whether writing the description file succeeds. -/
  descWriteOk : Bool
deriving DecidableEq

/-- What describe_image produces: the value the Python function returns,
plus whether the os.remove of the temporary image file was executed. -/
structure CaptionOutcome where
  description : Option String
  tempRemoved : Bool
deriving DecidableEq

/-- Embeds FeedbackLoop.describe_image.  The os.remove of the temporary
file sits after the replicate.run call inside the try block, so it runs
only when that call returns; any fault is caught at the except clause
and None is returned. -/
def describe_image (image : Image) (env : CaptionEnv) : CaptionOutcome :=
  if env.tempSaveOk then
    match env.providerResult with
    | Except.error _ => { description := none, tempRemoved := false }
    | Except.ok chunks =>
      let description := pyStrip (String.join chunks)
      if env.descWriteOk then { description := some description, tempRemoved := true }
      else { description := none, tempRemoved := true }
  else { description := none, tempRemoved := false }

/-- Status of one iteration, as the spec classifies it: the expansion
step never fails, synthesis fails when generate_image returns None, and
captioning fails when describe_image returns None. -/
inductive IterStatus where
  | Complete : IterStatus
  | FailedAtExpansion : IterStatus
  | FailedAtSynthesis : IterStatus
  | FailedAtCaptioning : IterStatus
deriving DecidableEq

/-- Record of one loop iteration of main: the prompt fed into the
expansion step, the values produced by the three steps, and the status
derived from which step (if any) returned None. -/
structure IterationResult where
  iterationIndex : Nat
  inputPrompt : Option String
  expandedPrompt : Option String
  image : Option Image
  description : Option String
  status : IterStatus
deriving DecidableEq

/-- Per-iteration environment: the outcomes of all external calls of the
three steps of that iteration. -/
structure IterEnv where
  expandE : ExpandEnv
  synthE : SynthEnv
  captionE : CaptionEnv

/-- One iteration of the for-loop body of main: expand the current
prompt, generate an image from the expansion, and, when an image was
produced, describe it.  The description may be None (describe_image
caught a fault); main stores it into current_prompt without checking. -/
def runIteration (i : Nat) (current : Option String) (e : IterEnv) : IterationResult :=
  let expanded := (expand_prompt current e.expandE).1
  let so := generate_image expanded e.synthE
  let desc : Option String :=
    match so.image with
    | none => none
    | some im => (describe_image im e.captionE).description
  { iterationIndex := i
    inputPrompt := current
    expandedPrompt := expanded
    image := so.image
    description := desc
    status :=
      if so.image.isNone then IterStatus.FailedAtSynthesis
      else if desc.isSome then IterStatus.Complete
      else IterStatus.FailedAtCaptioning }

/-- Embeds the for-loop of main.  The loop breaks only when the image is
None (the source checks only the image before continuing); otherwise
current_prompt is set to the description -- even when that description
is None -- and the next iteration runs. -/
def runLoop (envs : Nat → IterEnv) : Nat → Nat → Option String → List IterationResult
  | 0, _, _ => []
  | Nat.succ n, i, current =>
    if (runIteration i current (envs i)).image.isNone then
      [runIteration i current (envs i)]
    else
      runIteration i current (envs i) ::
        runLoop envs n (i + 1) (runIteration i current (envs i)).description

/-- A whole session of main: the user-supplied initial prompt and the
iteration count drive the loop from index 0. -/
def feedbackSession (initialPrompt : String) (iterations : Nat)
    (envs : Nat → IterEnv) : List IterationResult :=
  runLoop envs iterations 0 (some initialPrompt)

/-- Checks that no element is followed by another element after a
synthesis failure: every element except possibly the last has a status
different from FailedAtSynthesis. -/
def stopsAfterSynthFailure : List IterationResult → Bool
  | [] => true
  | [_] => true
  | r :: s :: rest =>
    (r.status != IterStatus.FailedAtSynthesis) && stopsAfterSynthFailure (s :: rest)

/-- Iteration environment in which every external call succeeds except
the captioning model invocation, which raises a fault. -/
def claim1CaptionFailEnv : IterEnv :=
  { expandE :=
      { localResult := Except.ok { status := 200, jsonField := Except.ok (some "p") }
        localWriteOk := true
        fallbackResult := Except.ok []
        fallbackWriteOk := true }
    synthE :=
      { provider := fun _ => Except.ok ["u"]
        fetch := fun _ => FetchResult.response 200 [0]
        decodeOk := true
        saveOk := true
        imagePath := "i" }
    captionE :=
      { tempSaveOk := true
        providerResult := Except.error ()
        descWriteOk := true } }

/-- Iteration environment in which every external call succeeds. -/
def claim1AllOkEnv : IterEnv :=
  { expandE :=
      { localResult := Except.ok { status := 200, jsonField := Except.ok (some "p") }
        localWriteOk := true
        fallbackResult := Except.ok []
        fallbackWriteOk := true }
    synthE :=
      { provider := fun _ => Except.ok ["u"]
        fetch := fun _ => FetchResult.response 200 [0]
        decodeOk := true
        saveOk := true
        imagePath := "i" }
    captionE :=
      { tempSaveOk := true
        providerResult := Except.ok ["d"]
        descWriteOk := true } }

/-- Iteration environment in which every external call succeeds except
the artifact-store write that saves the generated image, which fails. -/
def claim3SaveFailEnv : IterEnv :=
  { expandE :=
      { localResult := Except.ok { status := 200, jsonField := Except.ok (some "p") }
        localWriteOk := true
        fallbackResult := Except.ok []
        fallbackWriteOk := true }
    synthE :=
      { provider := fun _ => Except.ok ["u"]
        fetch := fun _ => FetchResult.response 200 [0]
        decodeOk := true
        saveOk := false
        imagePath := "i" }
    captionE :=
      { tempSaveOk := true
        providerResult := Except.ok ["d"]
        descWriteOk := true } }

/-- Iteration environment in which every external call succeeds except
the artifact-store write that saves the description, which fails. -/
def claim3DescWriteFailEnv : IterEnv :=
  { expandE :=
      { localResult := Except.ok { status := 200, jsonField := Except.ok (some "p") }
        localWriteOk := true
        fallbackResult := Except.ok []
        fallbackWriteOk := true }
    synthE :=
      { provider := fun _ => Except.ok ["u"]
        fetch := fun _ => FetchResult.response 200 [0]
        decodeOk := true
        saveOk := true
        imagePath := "i" }
    captionE :=
      { tempSaveOk := true
        providerResult := Except.ok ["d"]
        descWriteOk := false } }

/-- The prompt recorded in an iteration record is the prompt that was fed in. -/
theorem runIteration_inputPrompt (i : Nat) (current : Option String) (e : IterEnv) :
    (runIteration i current e).inputPrompt = current := rfl

/-- The status field of an iteration record, expressed through the image
and description fields of the same record. -/
theorem runIteration_status_eq (i : Nat) (current : Option String) (e : IterEnv) :
    (runIteration i current e).status =
      (if (runIteration i current e).image.isNone then IterStatus.FailedAtSynthesis
       else if (runIteration i current e).description.isSome then IterStatus.Complete
       else IterStatus.FailedAtCaptioning) := rfl

/-- An iteration that produced an image is never marked FailedAtSynthesis. -/
theorem runIteration_not_synthFail (i : Nat) (current : Option String) (e : IterEnv)
    (h : (runIteration i current e).image.isNone = false) :
    ((runIteration i current e).status != IterStatus.FailedAtSynthesis) = true := by
  cases h2 : (runIteration i current e).description.isSome <;>
    rw [runIteration_status_eq, h, h2] <;> decide

/-- The first record of a loop run receives the prompt the run started from. -/
theorem runLoop_head_inputPrompt (envs : Nat → IterEnv) (n i : Nat)
    (current : Option String) (hd : IterationResult) (tl : List IterationResult)
    (h : runLoop envs n i current = hd :: tl) : hd.inputPrompt = current := by
  cases n with
  | zero => simp [runLoop] at h
  | succ m =>
    rw [runLoop] at h
    split at h <;>
      (injection h with h1 h2; rw [← h1]; exact runIteration_inputPrompt _ _ _)

/-- A loop run produces at most as many records as it was given
iterations, and no record follows a record whose status is
FailedAtSynthesis. -/
theorem runLoop_bound_and_stop (envs : Nat → IterEnv) (n : Nat) :
    ∀ (i : Nat) (current : Option String),
      (runLoop envs n i current).length ≤ n ∧
      stopsAfterSynthFailure (runLoop envs n i current) = true := by
  induction n with
  | zero => intro i current; simp [runLoop, stopsAfterSynthFailure]
  | succ m ih =>
    intro i current
    by_cases him : (runIteration i current (envs i)).image.isNone = true
    · rw [runLoop, if_pos him]
      exact ⟨by simp, by rw [stopsAfterSynthFailure]⟩
    · rw [runLoop, if_neg him]
      obtain ⟨ih1, ih2⟩ := ih (i + 1) (runIteration i current (envs i)).description
      refine ⟨by simpa using Nat.succ_le_succ ih1, ?_⟩
      have hb : (runIteration i current (envs i)).image.isNone = false := by
        revert him; cases (runIteration i current (envs i)).image.isNone <;> simp
      rcases hh : runLoop envs m (i + 1) (runIteration i current (envs i)).description
        with _ | ⟨hd, tl⟩
      · rw [stopsAfterSynthFailure]
      · rw [hh] at ih2
        rw [stopsAfterSynthFailure,
          runIteration_not_synthFail i current (envs i) hb, ih2]
        decide

/-- Along any loop run, each record after the first receives as its
input prompt exactly the description of the record before it. -/
theorem runLoop_chain (envs : Nat → IterEnv) (n : Nat) :
    ∀ (i : Nat) (current : Option String),
      List.Chain' (fun a b => b.inputPrompt = a.description)
        (runLoop envs n i current) := by
  induction n with
  | zero => intro i current; simp [runLoop]
  | succ m ih =>
    intro i current
    by_cases him : (runIteration i current (envs i)).image.isNone = true
    · rw [runLoop, if_pos him]; simp
    · rw [runLoop, if_neg him]
      refine List.chain'_cons'.mpr ⟨?_, ih (i + 1) _⟩
      intro y hy
      rcases hh : runLoop envs m (i + 1) (runIteration i current (envs i)).description
        with _ | ⟨hd, tl⟩
      · rw [hh] at hy; simp at hy
      · rw [hh] at hy
        simp at hy
        exact hy ▸ runLoop_head_inputPrompt envs m (i + 1)
          (runIteration i current (envs i)).description hd tl hh

/-- The expansion step always yields a present prompt string, whatever
the outcomes of the endpoint, the fallback and the file writes are. -/
theorem expand_prompt_some (P : String) (env : ExpandEnv) :
    ∃ s : String, (expand_prompt (some P) env).1 = some s := by
  obtain ⟨lr, lw, fr, fw⟩ := env
  have hfall : ∃ s : String,
      expand_prompt_with_replicate (some P)
        { localResult := lr, localWriteOk := lw
          fallbackResult := fr, fallbackWriteOk := fw } = some s := by
    cases fr with
    | error e => exact ⟨P, rfl⟩
    | ok chunks =>
      cases fw
      · exact ⟨P, rfl⟩
      · exact ⟨pyStrip (String.join chunks), rfl⟩
  cases lr with
  | error e => simpa [expand_prompt] using hfall
  | ok resp =>
    obtain ⟨st, jf⟩ := resp
    by_cases hs : st = 200
    · cases jf with
      | error e => simpa [expand_prompt, hs] using hfall
      | ok field =>
        cases lw with
        | false => simpa [expand_prompt, hs] using hfall
        | true => exact ⟨pyStrip (field.getD ""), by simp [expand_prompt, hs]⟩
    · simpa [expand_prompt, hs] using hfall

/-- C1 (amended): for every session, the driver produces at most
maxIterations iteration records, and it stops the loop immediately,
without consuming remaining iterations, the first time an iteration
fails at synthesis: no IterationResult follows one whose status is
FailedAtSynthesis.  (A failure at captioning does not stop the loop;
see the counterexample.) -/
theorem claim1_loop_bound_and_synth_stop (initialPrompt : String) (maxIterations : Nat)
    (envs : Nat → IterEnv) :
    (feedbackSession initialPrompt maxIterations envs).length ≤ maxIterations ∧
    stopsAfterSynthFailure (feedbackSession initialPrompt maxIterations envs) = true :=
  runLoop_bound_and_stop envs maxIterations 0 (some initialPrompt)

/-- C1 counterexample: in a two-iteration session whose first iteration
fails at captioning (the captioning model faults) while everything else
succeeds, the driver does not stop: a second IterationResult is
produced, and it even completes.  This refutes the part of the claim
that says the loop stops the first time a status differs from Complete
whether the failure is at synthesis or at captioning. -/
theorem claim1_counterexample :
    ((feedbackSession "A cat playing piano" 2
        (fun k => if k = 0 then claim1CaptionFailEnv else claim1AllOkEnv)).map
      IterationResult.status) =
      [IterStatus.FailedAtCaptioning, IterStatus.Complete] := by decide

/-- C2 (amended): the temporary image file created by the captioning
operation is deleted when the provider call returns; but when the call
fails with a fault (or the temporary save itself fails), the deletion is
skipped and the temporary file is left behind. -/
theorem claim2_temp_removal (img : Image) (env : CaptionEnv) :
    (∀ chunks : List String, env.tempSaveOk = true →
      env.providerResult = Except.ok chunks →
      (describe_image img env).tempRemoved = true) ∧
    (env.providerResult = Except.error () →
      (describe_image img env).tempRemoved = false) := by
  obtain ⟨ts, pr, dw⟩ := env
  constructor
  · intro chunks hts hpr
    subst hts
    cases hpr
    cases dw <;> rfl
  · intro hpr
    cases hpr
    cases ts <;> rfl

/-- C2 witness: a successful provider call with a concrete chunk leads
to the temporary file being removed (even though the description write
then fails). -/
theorem claim2_witness :
    (describe_image [0]
        { tempSaveOk := true, providerResult := Except.ok ["d"]
          descWriteOk := false }).tempRemoved = true :=
  (claim2_temp_removal [0]
    { tempSaveOk := true, providerResult := Except.ok ["d"]
      descWriteOk := false }).1 ["d"] rfl rfl

/-- C2 counterexample: when the captioning provider call fails with a
fault, the temporary file is not deleted, refuting the claim that the
deletion happens both on success and on failure. -/
theorem claim2_counterexample :
    (describe_image [0]
        { tempSaveOk := true, providerResult := Except.error ()
          descWriteOk := true }).tempRemoved = false := rfl

/-- C3 (amended): a failure of an artifact-store write of a prompt or of
a description does not by itself abort the iteration -- the expansion
step still returns a present prompt even when both prompt writes fail,
and the driver continues past any iteration that produced an image,
whatever the description or its write outcome was -- but a failure of
the artifact-store write that saves the generated image makes the
synthesis step return absent, which aborts the iteration. -/
theorem claim3_write_failure_tolerance :
    (∀ (P : String) (env : ExpandEnv), env.localWriteOk = false →
      env.fallbackWriteOk = false →
      ∃ s : String, (expand_prompt (some P) env).1 = some s) ∧
    (∀ (envs : Nat → IterEnv) (n i : Nat) (current : Option String) (im : Image),
      (runIteration i current (envs i)).image = some im →
      runLoop envs (n + 1) i current =
        runIteration i current (envs i) ::
          runLoop envs n (i + 1) (runIteration i current (envs i)).description) ∧
    (∀ (p : Option String) (env : SynthEnv), env.saveOk = false →
      (generate_image p env).image = none ∧ (generate_image p env).path = none) := by
  refine ⟨fun P env _ _ => expand_prompt_some P env, ?_, ?_⟩
  · intro envs n i current im him
    rw [runLoop, him]
    simp
  · intro p env hsave
    obtain ⟨prov, ftch, dok, sok, ipath⟩ := env
    cases hsave
    rcases hp : prov (synthesisRequest p) with e | urls
    · constructor <;> simp [generate_image, hp]
    · cases urls with
      | nil => constructor <;> simp [generate_image, hp]
      | cons u rest =>
        rcases hf : ftch u with _ | ⟨st, content⟩
        · constructor <;> simp [generate_image, hp, hf]
        · by_cases hst : st = 200
          · cases dok <;> (constructor <;> simp [generate_image, hp, hf, hst])
          · constructor <;> simp [generate_image, hp, hf, hst]

/-- C3 witness: concrete instances of the three parts -- expansion with
both prompt writes failing still yields a prompt; a session continues
past an iteration whose description write failed; and an image-save
failure makes generate_image return (None, None). -/
theorem claim3_witness :
    (∃ s : String, (expand_prompt (some "x")
        { localResult := Except.error (), localWriteOk := false
          fallbackResult := Except.error (), fallbackWriteOk := false }).1 = some s) ∧
    runLoop (fun _ => claim3DescWriteFailEnv) 2 0 (some "x") =
      runIteration 0 (some "x") claim3DescWriteFailEnv ::
        runLoop (fun _ => claim3DescWriteFailEnv) 1 1
          (runIteration 0 (some "x") claim3DescWriteFailEnv).description ∧
    (generate_image (some "x")
        { provider := fun _ => Except.ok ["u"]
          fetch := fun _ => FetchResult.response 200 [0]
          decodeOk := true, saveOk := false, imagePath := "i" }).image = none :=
  ⟨claim3_write_failure_tolerance.1 "x"
      { localResult := Except.error (), localWriteOk := false
        fallbackResult := Except.error (), fallbackWriteOk := false } rfl rfl,
   claim3_write_failure_tolerance.2.1 (fun _ => claim3DescWriteFailEnv) 1 0 (some "x") [0] rfl,
   (claim3_write_failure_tolerance.2.2 (some "x")
      { provider := fun _ => Except.ok ["u"]
        fetch := fun _ => FetchResult.response 200 [0]
        decodeOk := true, saveOk := false, imagePath := "i" } rfl).1⟩

/-- C3 counterexample: a three-iteration session in which every external
call succeeds except the artifact-store write that saves the image of
the first iteration.  That single write failure makes the first
iteration fail at synthesis and aborts the session after one record,
refuting the claim that an artifact-store write failure never aborts an
iteration. -/
theorem claim3_counterexample :
    ((feedbackSession "A cat playing piano" 3 (fun _ => claim3SaveFailEnv)).map
      IterationResult.status) = [IterStatus.FailedAtSynthesis] := by decide

/-- C4: if the local expansion endpoint fails (transport error or
non-200 response) and the Replicate fallback also fails, expand returns
the original short prompt unchanged. -/
theorem claim4_both_fail_returns_original (P : String) (env : ExpandEnv)
    (hlocal : env.localResult = Except.error () ∨
      ∃ resp, env.localResult = Except.ok resp ∧ resp.status ≠ 200)
    (hfall : env.fallbackResult = Except.error ()) :
    (expand_prompt (some P) env).1 = some P := by
  have hrep : expand_prompt_with_replicate (some P) env = some P := by
    unfold expand_prompt_with_replicate
    rw [hfall]
  rcases hlocal with h | ⟨resp, h, hst⟩
  · simp [expand_prompt, h, hrep]
  · simp [expand_prompt, h, hst, hrep]

/-- C4 witness: with the local endpoint raising and the fallback
raising, a concrete prompt comes back unchanged. -/
theorem claim4_witness :
    (expand_prompt (some "A cat playing piano")
        { localResult := Except.error (), localWriteOk := true
          fallbackResult := Except.error (), fallbackWriteOk := true }).1 =
      some "A cat playing piano" :=
  claim4_both_fail_returns_original "A cat playing piano"
    { localResult := Except.error (), localWriteOk := true
      fallbackResult := Except.error (), fallbackWriteOk := true }
    (Or.inl rfl) rfl

/-- C5: for every short prompt and every combination of outcomes of the
local endpoint, the fallback provider and the artifact-store writes,
expand returns a present prompt string: it never returns the no-result
signal, and (being total on its environment, every except clause of the
source being modelled) it never propagates a fault to the caller. -/
theorem claim5_expand_never_absent (P : String) (env : ExpandEnv) :
    ∃ s : String, (expand_prompt (some P) env).1 = some s :=
  expand_prompt_some P env

/-- C6: whenever the local endpoint is unreachable or answers with a
non-success status, expand invokes the Replicate fallback exactly once
before returning; the invocation count of the fallback provider is 1,
so no further retry happens. -/
theorem claim6_fallback_invoked_once (P : String) (env : ExpandEnv)
    (hlocal : env.localResult = Except.error () ∨
      ∃ resp, env.localResult = Except.ok resp ∧ resp.status ≠ 200) :
    (expand_prompt (some P) env).2 = 1 := by
  rcases hlocal with h | ⟨resp, h, hst⟩
  · simp [expand_prompt, h]
  · simp [expand_prompt, h, hst]

/-- C6 witness: a concrete non-200 response from the local endpoint
leads to exactly one fallback invocation. -/
theorem claim6_witness :
    (expand_prompt (some "A cat playing piano")
        { localResult := Except.ok { status := 500, jsonField := Except.ok none }
          localWriteOk := true
          fallbackResult := Except.ok ["e"], fallbackWriteOk := true }).2 = 1 :=
  claim6_fallback_invoked_once "A cat playing piano"
    { localResult := Except.ok { status := 500, jsonField := Except.ok none }
      localWriteOk := true
      fallbackResult := Except.ok ["e"], fallbackWriteOk := true }
    (Or.inr ⟨{ status := 500, jsonField := Except.ok none }, rfl, by decide⟩)

/-- C7: in a failure-free run (the provider call returns a list of URLs,
the fetch returns a response rather than raising, decoding and saving
succeed), synthesize returns absent -- as a value, never as a thrown
fault -- exactly when the provider returned zero output URLs or the
HTTP fetch of the image bytes came back with a non-200 status; in every
other such run it returns the decoded image together with its persisted
path. -/
theorem claim7_absent_iff_no_output_or_fetch_failure (p : Option String)
    (env : SynthEnv) (urls : List String)
    (hp : env.provider (synthesisRequest p) = Except.ok urls)
    (hdec : env.decodeOk = true) (hsave : env.saveOk = true) :
    (urls = [] →
      (generate_image p env).image = none ∧ (generate_image p env).path = none) ∧
    (∀ (u : String) (rest : List String) (st : Nat) (content : List Nat),
      urls = u :: rest →
      env.fetch u = FetchResult.response st content →
      (((generate_image p env).image = none ∧ (generate_image p env).path = none)
          ↔ st ≠ 200) ∧
      (st = 200 →
        (generate_image p env).image = some content ∧
        (generate_image p env).path = some env.imagePath)) := by
  constructor
  · intro hnil
    subst hnil
    constructor <;> simp [generate_image, hp]
  · intro u rest st content hurls hfetch
    subst hurls
    by_cases hst : st = 200
    · subst hst
      constructor
      · simp [generate_image, hp, hfetch, hdec, hsave]
      · intro _
        constructor <;> simp [generate_image, hp, hfetch, hdec, hsave]
    · constructor
      · simp [generate_image, hp, hfetch, hst]
      · intro h
        exact absurd h hst

/-- C7 witness: a successful provider returning one URL whose fetch
succeeds with status 200 yields the decoded bytes and the saved path. -/
theorem claim7_witness :
    (generate_image (some "x")
        { provider := fun _ => Except.ok ["u"]
          fetch := fun _ => FetchResult.response 200 [7]
          decodeOk := true, saveOk := true, imagePath := "img.png" }).image = some [7] ∧
    (generate_image (some "x")
        { provider := fun _ => Except.ok ["u"]
          fetch := fun _ => FetchResult.response 200 [7]
          decodeOk := true, saveOk := true, imagePath := "img.png" }).path =
      some "img.png" :=
  ((claim7_absent_iff_no_output_or_fetch_failure (some "x")
      { provider := fun _ => Except.ok ["u"]
        fetch := fun _ => FetchResult.response 200 [7]
        decodeOk := true, saveOk := true, imagePath := "img.png" }
      ["u"] rfl rfl rfl).2 "u" [] 200 [7] rfl rfl).2 rfl

/-- C9: any two invocations of synthesize with the same prompt send the
identical request to the provider -- width 768, height 768, one output,
scheduler K_EULER_ANCESTRAL, 50 inference steps, guidance scale 7.5,
seed 42 and the fixed negative prompt -- so under a deterministic
provider (an identical environment) the two invocations produce
identical outcomes. -/
theorem claim9_reproducible_request (p : Option String) (env env2 : SynthEnv) :
    (generate_image p env).request = (generate_image p env2).request ∧
    (generate_image p env).request =
      { prompt := p, width := 768, height := 768, num_outputs := 1
        scheduler := "K_EULER_ANCESTRAL", num_inference_steps := 50
        guidance_scale := 7.5, seed := 42
        negative_prompt := "ugly, blurry, poor quality, deformed, disfigured" } ∧
    (env = env2 → generate_image p env = generate_image p env2) := by
  refine ⟨rfl, rfl, ?_⟩
  intro h
  rw [h]

/-- C9 witness: two invocations on the same concrete prompt and the same
concrete deterministic environment coincide. -/
theorem claim9_witness :
    generate_image (some "x")
        { provider := fun _ => Except.ok []
          fetch := fun _ => FetchResult.fault
          decodeOk := true, saveOk := true, imagePath := "i" } =
      generate_image (some "x")
        { provider := fun _ => Except.ok []
          fetch := fun _ => FetchResult.fault
          decodeOk := true, saveOk := true, imagePath := "i" } :=
  (claim9_reproducible_request (some "x")
    { provider := fun _ => Except.ok []
      fetch := fun _ => FetchResult.fault
      decodeOk := true, saveOk := true, imagePath := "i" }
    { provider := fun _ => Except.ok []
      fetch := fun _ => FetchResult.fault
      decodeOk := true, saveOk := true, imagePath := "i" }).2.2 rfl

/-- C10: when the local endpoint answers HTTP 200 with a JSON body that
has no response field (and the prompt write goes through as usual), the
missing field defaults to the empty string, which strips to the empty
string: expand returns the empty string, not the original prompt, and
the fallback provider is not invoked. -/
theorem claim10_missing_field_yields_empty (P : String) (env : ExpandEnv)
    (hl : env.localResult = Except.ok { status := 200, jsonField := Except.ok none })
    (hw : env.localWriteOk = true) :
    (expand_prompt (some P) env).1 = some "" ∧ (expand_prompt (some P) env).2 = 0 := by
  have ht : pyStrip "" = "" := by decide
  constructor <;> simp [expand_prompt, hl, hw, ht]

/-- C10 witness: a concrete 200 response without the field maps a
concrete prompt to the empty expansion with zero fallback invocations. -/
theorem claim10_witness :
    (expand_prompt (some "A cat playing piano")
        { localResult := Except.ok { status := 200, jsonField := Except.ok none }
          localWriteOk := true
          fallbackResult := Except.error (), fallbackWriteOk := true }).1 = some "" ∧
    (expand_prompt (some "A cat playing piano")
        { localResult := Except.ok { status := 200, jsonField := Except.ok none }
          localWriteOk := true
          fallbackResult := Except.error (), fallbackWriteOk := true }).2 = 0 :=
  claim10_missing_field_yields_empty "A cat playing piano"
    { localResult := Except.ok { status := 200, jsonField := Except.ok none }
      localWriteOk := true
      fallbackResult := Except.error (), fallbackWriteOk := true } rfl rfl

/-- C8: along every session, consecutive iteration records are chained:
the description output of an iteration is exactly the prompt fed into
the expansion step of the following iteration. -/
theorem claim8_round_trip (initialPrompt : String) (iterations : Nat)
    (envs : Nat → IterEnv) :
    List.Chain' (fun a b => b.inputPrompt = a.description)
      (feedbackSession initialPrompt iterations envs) :=
  runLoop_chain envs iterations 0 (some initialPrompt)
